import Mathlib

/-!
Verification of the request/response contract and derived-view computations of the
rental-property investment simulator front end (apps/web).  Numbers are modelled as
rationals; JS truthiness on a number is `x ≠ 0`, on an optional value it is
"defined and ≠ 0" (`jsOr` below); a rejected promise is `Except.error` carrying the
thrown message, a resolved one is `Except.ok`.
-/

namespace FinModels

/-! ## Data model (apps/web/src/lib/api.ts) -/

/-- `SimulationMetrics` from lib/api.ts. -/
structure SimulationMetrics where
  irr : ℚ
  npv : ℚ
  monthly_cashflow : ℚ
  cash_on_cash : ℚ
  equity_multiple : ℚ
  exit_property_value : ℚ
  net_exit_proceeds : ℚ
  capital_gains_tax : ℚ
  capital_gain : ℚ
  remaining_loan : ℚ
  selling_costs : ℚ
  deriving DecidableEq

/-- `FiscalScenario` from lib/api.ts. -/
structure FiscalScenario where
  regime : String
  gross_revenue : ℚ
  taxable_income : ℚ
  total_tax : ℚ
  effective_rate : ℚ
  deriving DecidableEq

/-- `FiscalComparison` from lib/api.ts. -/
structure FiscalComparison where
  recommended : String
  reason : String
  annual_savings : ℚ
  micro : FiscalScenario
  reel : FiscalScenario
  deriving DecidableEq

/-- `YearlyCashFlow` from lib/api.ts.  The `year` field is a JS number. -/
structure YearlyCashFlow where
  year : ℚ
  net_change : ℚ
  cumulative : ℚ
  deriving DecidableEq

/-- Alert type tag: `'success' | 'warning' | 'error'`. -/
inductive AlertType
  | success
  | warning
  | error
  deriving DecidableEq

/-- `Alert` from lib/api.ts. -/
structure Alert where
  type : AlertType
  icon : String
  message_fr : String
  message_en : String
  deriving DecidableEq

/-- `LMPStatus` from lib/api.ts; the `implications*` records are modelled as
association lists. -/
structure LMPStatus where
  is_lmp : Bool
  revenue_threshold_met : Bool
  income_condition_met : Bool
  annual_revenue : ℚ
  threshold : ℚ
  implications : Option (List (String × String)) := none
  implications_fr : Option (List (String × String)) := none
  implications_en : Option (List (String × String)) := none
  deriving DecidableEq

/-- `SimulationResponse` from lib/api.ts. -/
structure SimulationResponse where
  success : Bool
  metrics : Option SimulationMetrics := none
  fiscal : Option FiscalComparison := none
  yearly_cashflows : Option (List YearlyCashFlow) := none
  alerts : Option (List Alert) := none
  error : Option String := none
  deriving DecidableEq

/-- `ExpertSimulationResponse extends SimulationResponse` from lib/api.ts. -/
structure ExpertSimulationResponse extends SimulationResponse where
  lmp_status : Option LMPStatus := none
  deriving DecidableEq

/-- In TS both response shapes inhabit the same UI state slot (`SimulationResponse |
ExpertSimulationResponse`); structurally a `SimulationResponse` is an
`ExpertSimulationResponse` whose optional `lmp_status` is absent. -/
def SimulationResponse.asExpert (r : SimulationResponse) : ExpertSimulationResponse :=
  { toSimulationResponse := r }

/-- `LeaseType` from lib/api.ts. -/
inductive LeaseType
  | furnished_1yr
  | unfurnished_3yr
  | airbnb
  deriving DecidableEq

/-- `ExpertSimulationRequest` from lib/api.ts.  In the TS type almost every field is
optional, but the expert form state initialises all of them except `discount_rate`
and every input writes a number back, so those fields are modelled as total;
`discount_rate` is never set by the form and stays optional. -/
structure ExpertSimulationRequest where
  location : String
  property_price : ℚ
  surface_sqm : ℚ
  agency_fees_pct : ℚ
  notary_fees_pct : ℚ
  initial_renovation : ℚ
  furnishing_costs : ℚ
  apport : ℚ
  loan_rate : ℚ
  loan_duration_years : ℚ
  loan_insurance_rate : ℚ
  lease_type : LeaseType
  monthly_rent : ℚ
  daily_rate : ℚ
  vacancy_rate : ℚ
  occupancy_rate : ℚ
  rent_growth_rate : ℚ
  property_tax_yearly : ℚ
  condo_fees_monthly : ℚ
  pno_insurance_yearly : ℚ
  maintenance_pct : ℚ
  management_fee_pct : ℚ
  tmi : ℚ
  holding_years : ℚ
  property_growth_rate : ℚ
  exit_fees_pct : ℚ
  discount_rate : Option ℚ := none
  deriving DecidableEq

/-- `SensitivityPoint` from lib/api.ts. -/
structure SensitivityPoint where
  value : ℚ
  irr : ℚ
  npv : ℚ
  monthly_cashflow : ℚ
  deriving DecidableEq

/-- `SensitivityRequest` from lib/api.ts; `var_name` embeds the TS field
`variable` (a Lean keyword). -/
structure SensitivityRequest where
  base_params : ExpertSimulationRequest
  var_name : String
  range_min : Option ℚ := none
  range_max : Option ℚ := none
  steps : Option ℕ := none
  deriving DecidableEq

/-- `SensitivityResponse` from lib/api.ts; `var_name` embeds the TS field
`variable`. -/
structure SensitivityResponse where
  success : Bool
  var_name : String
  base_value : ℚ
  points : Option (List SensitivityPoint) := none
  error : Option String := none
  deriving DecidableEq

/-! ## JS truthiness helpers -/

/-- The JS expression `x || y` for an optional number `x`: `undefined` and `0` are
falsy, any other number is returned unchanged. -/
def jsOr (x : Option ℚ) (y : ℚ) : ℚ :=
  match x with
  | none => y
  | some v => if v = 0 then y else v

/-- The JS expression `x || y` for two plain numbers. -/
def jsOrQ (x y : ℚ) : ℚ :=
  if x = 0 then y else x

/-- The JS expression `x || y` for an optional string `x`: `undefined` and the
empty string are falsy, any other string is returned unchanged. -/
def jsOrS (x : Option String) (y : String) : String :=
  match x with
  | none => y
  | some v => if v = "" then y else v

/-! ## ScoreGauge (components/ScoreGauge.tsx) -/

/-- Default `riskFreeRate` prop of `ScoreGauge`. -/
def defaultRiskFreeRate : ℚ := 0.035

/-- Default `discountRate` prop of `ScoreGauge`. -/
def defaultDiscountRate : ℚ := 0.05

/-- The record returned by `getScoreInfo` in ScoreGauge.tsx. -/
structure ScoreInfo where
  color : String
  label : String
  emoji : String
  deriving DecidableEq

/-- `getScoreInfo` from ScoreGauge.tsx; the two translated labels
(`t('good_investment')`, `t('poor_return')`) are passed in as parameters. -/
def getScoreInfo (irr riskFreeRate discountRate : ℚ)
    (goodLabel poorLabel : String) : ScoreInfo :=
  if irr > discountRate then ⟨"#22c55e", goodLabel, "G"⟩
  else if irr > riskFreeRate then ⟨"#eab308", "Acceptable", "Y"⟩
  else ⟨"#ef4444", poorLabel, "R"⟩

/-- The three classification buckets of `getScoreInfo`. -/
inductive InvestmentQuality
  | good
  | acceptable
  | poor
  deriving DecidableEq

/-- Which branch of `getScoreInfo` is taken (same guards, same order). -/
def scoreQuality (irr riskFreeRate discountRate : ℚ) : InvestmentQuality :=
  if irr > discountRate then .good
  else if irr > riskFreeRate then .acceptable
  else .poor

/-- The record produced by each `getScoreInfo` branch, indexed by its bucket. -/
def scoreInfoOf (q : InvestmentQuality) (goodLabel poorLabel : String) : ScoreInfo :=
  match q with
  | .good => ⟨"#22c55e", goodLabel, "G"⟩
  | .acceptable => ⟨"#eab308", "Acceptable", "Y"⟩
  | .poor => ⟨"#ef4444", poorLabel, "R"⟩

/-! ## FiscalComparison (components/FiscalComparison.tsx) -/

/-- Guard of the annual-savings badge in FiscalComparison.tsx:
`data.annual_savings > 100 && (...)`. -/
def savingsBadgeShown (data : FiscalComparison) : Bool :=
  decide (data.annual_savings > 100)

/-! ## Simple form (components/SimulatorForm.tsx) -/

/-- The `form` state of `SimulatorForm`; `loan_rate` is held in whole-number
percent there (initial value 3.5). -/
structure SimpleForm where
  location : String
  price : ℚ
  surface_sqm : ℚ
  monthly_rent : ℚ
  apport : ℚ
  loan_rate : ℚ
  deriving DecidableEq

/-- `SimulationRequest` from lib/api.ts (aka `SimpleSimulationRequest`). -/
structure SimulationRequest where
  location : String
  price : ℚ
  surface_sqm : ℚ
  monthly_rent : ℚ
  apport : ℚ
  loan_rate : ℚ
  deriving DecidableEq

/-- `handleSubmit` of SimulatorForm.tsx:
`onSubmit({ ...form, loan_rate: form.loan_rate / 100 })`. -/
def submitSimpleForm (f : SimpleForm) : SimulationRequest :=
  ⟨f.location, f.price, f.surface_sqm, f.monthly_rent, f.apport, f.loan_rate / 100⟩

/-! ## Expert form percent inputs (components/ExpertSimulatorForm.tsx)

Each percent input displays `(form.field || fallback) * 100` and its onChange
stores `entered / 100`.  The fallback is `0` for every field except
`occupancy_rate` (`0.7`) and `vacancy_rate` (`0.05`). -/

/-- onChange of the notary-fees input: stores `entered / 100`. -/
def updateNotaryFees (f : ExpertSimulationRequest) (entered : ℚ) : ExpertSimulationRequest :=
  { f with notary_fees_pct := entered / 100 }

/-- Displayed value of the notary-fees input: `(form.notary_fees_pct || 0) * 100`. -/
def displayNotaryFeesPct (f : ExpertSimulationRequest) : ℚ :=
  jsOrQ f.notary_fees_pct 0 * 100

/-- onChange of the loan-rate input: stores `entered / 100`. -/
def updateLoanRate (f : ExpertSimulationRequest) (entered : ℚ) : ExpertSimulationRequest :=
  { f with loan_rate := entered / 100 }

/-- Displayed value of the loan-rate input: `(form.loan_rate || 0) * 100`. -/
def displayLoanRatePct (f : ExpertSimulationRequest) : ℚ :=
  jsOrQ f.loan_rate 0 * 100

/-- onChange of the loan-insurance input: stores `entered / 100`. -/
def updateLoanInsurance (f : ExpertSimulationRequest) (entered : ℚ) : ExpertSimulationRequest :=
  { f with loan_insurance_rate := entered / 100 }

/-- Displayed value of the loan-insurance input. -/
def displayLoanInsurancePct (f : ExpertSimulationRequest) : ℚ :=
  jsOrQ f.loan_insurance_rate 0 * 100

/-- onChange of the occupancy input: stores `entered / 100`. -/
def updateOccupancy (f : ExpertSimulationRequest) (entered : ℚ) : ExpertSimulationRequest :=
  { f with occupancy_rate := entered / 100 }

/-- Displayed value of the occupancy input: `(form.occupancy_rate || 0.7) * 100`. -/
def displayOccupancyPct (f : ExpertSimulationRequest) : ℚ :=
  jsOrQ f.occupancy_rate 0.7 * 100

/-- onChange of the vacancy input: stores `entered / 100`. -/
def updateVacancy (f : ExpertSimulationRequest) (entered : ℚ) : ExpertSimulationRequest :=
  { f with vacancy_rate := entered / 100 }

/-- Displayed value of the vacancy input: `(form.vacancy_rate || 0.05) * 100`. -/
def displayVacancyPct (f : ExpertSimulationRequest) : ℚ :=
  jsOrQ f.vacancy_rate 0.05 * 100

/-- onChange of the rent-growth input: stores `entered / 100`. -/
def updateRentGrowth (f : ExpertSimulationRequest) (entered : ℚ) : ExpertSimulationRequest :=
  { f with rent_growth_rate := entered / 100 }

/-- Displayed value of the rent-growth input. -/
def displayRentGrowthPct (f : ExpertSimulationRequest) : ℚ :=
  jsOrQ f.rent_growth_rate 0 * 100

/-- onChange of the maintenance input: stores `entered / 100`. -/
def updateMaintenance (f : ExpertSimulationRequest) (entered : ℚ) : ExpertSimulationRequest :=
  { f with maintenance_pct := entered / 100 }

/-- Displayed value of the maintenance input. -/
def displayMaintenancePct (f : ExpertSimulationRequest) : ℚ :=
  jsOrQ f.maintenance_pct 0 * 100

/-- onChange of the management-fee input: stores `entered / 100`. -/
def updateManagementFee (f : ExpertSimulationRequest) (entered : ℚ) : ExpertSimulationRequest :=
  { f with management_fee_pct := entered / 100 }

/-- Displayed value of the management-fee input. -/
def displayManagementFeePct (f : ExpertSimulationRequest) : ℚ :=
  jsOrQ f.management_fee_pct 0 * 100

/-- onChange of the price-growth input: stores `entered / 100`. -/
def updatePropertyGrowth (f : ExpertSimulationRequest) (entered : ℚ) : ExpertSimulationRequest :=
  { f with property_growth_rate := entered / 100 }

/-- Displayed value of the price-growth input. -/
def displayPropertyGrowthPct (f : ExpertSimulationRequest) : ℚ :=
  jsOrQ f.property_growth_rate 0 * 100

/-- `handleSubmit` of ExpertSimulatorForm.tsx submits the form state as-is:
`onSubmit(form)` — no further scaling happens on the way to the wire. -/
def submitExpertForm (f : ExpertSimulationRequest) : ExpertSimulationRequest := f

/-! ## Location-defaults merge (components/ExpertSimulatorForm.tsx) -/

/-- The keys of the location-defaults record that the merge effect reads; the
response is a `Record<string, number>`, so every key may be absent. -/
structure LocationDefaults where
  notary_pct : Option ℚ := none
  property_tax_per_sqm : Option ℚ := none
  condo_fees_per_sqm : Option ℚ := none
  pno_insurance : Option ℚ := none
  vacancy_rate : Option ℚ := none
  price_growth : Option ℚ := none
  management_fee_pct : Option ℚ := none
  deriving DecidableEq

/-- The `setForm` update run by the location-change effect of
ExpertSimulatorForm.tsx when the defaults fetch succeeds without an `error` key. -/
def mergeLocationDefaults (prev : ExpertSimulationRequest) (defaults : LocationDefaults) :
    ExpertSimulationRequest :=
  { prev with
    notary_fees_pct := jsOr defaults.notary_pct prev.notary_fees_pct
    property_tax_yearly := jsOr defaults.property_tax_per_sqm 0 * prev.surface_sqm
    condo_fees_monthly := jsOr defaults.condo_fees_per_sqm 0 * prev.surface_sqm
    pno_insurance_yearly := jsOr defaults.pno_insurance prev.pno_insurance_yearly
    vacancy_rate := jsOr defaults.vacancy_rate prev.vacancy_rate
    property_growth_rate := jsOr defaults.price_growth prev.property_growth_rate
    management_fee_pct := jsOr defaults.management_fee_pct prev.management_fee_pct }

/-! ## Breakeven detection (components/CumulativeCashFlowChart.tsx) -/

/-- The predicate passed to `data.find` in CumulativeCashFlowChart.tsx, expressed
on the index: `i > 0 && data[i-1].cumulative < 0 && data[i].cumulative >= 0`. -/
def transitionAt (data : List YearlyCashFlow) (i : ℕ) : Bool :=
  decide (0 < i) &&
    (match data[i - 1]? with
     | some prev => decide (prev.cumulative < 0)
     | none => false) &&
    (match data[i]? with
     | some cur => decide (0 ≤ cur.cumulative)
     | none => false)

/-- First index `≥ start` within `fuel` further positions satisfying `p` — the
scan order of `Array.prototype.find`. -/
def findFirstIdx (p : ℕ → Bool) : ℕ → ℕ → Option ℕ
  | _, 0 => none
  | start, fuel + 1 => if p start then some start else findFirstIdx p (start + 1) fuel

/-- `breakevenYear` in CumulativeCashFlowChart.tsx:
`data.find((d, i) => i > 0 && data[i-1].cumulative < 0 && d.cumulative >= 0)?.year`. -/
def breakevenYear (data : List YearlyCashFlow) : Option ℚ :=
  (findFirstIdx (transitionAt data) 0 data.length).bind
    fun i => (data[i]?).map YearlyCashFlow.year

/-- Guard of the breakeven badge: `{breakevenYear && (...)}` — JS truthiness on
the year number, so a year of `0` shows no badge either. -/
def breakevenBadgeShown (data : List YearlyCashFlow) : Bool :=
  match breakevenYear data with
  | some y => decide (y ≠ 0)
  | none => false

/-! ## SimulatorPage state (app/simulator/page.tsx)

Each submit handler is embedded as a transition on the page's `useState` slots:
it takes the state before the click and the outcome of the awaited call
(`Except.error` = the promise rejected, `Except.ok` = it resolved) and returns
the state after the handler has run to completion. -/

/-- The page's `Mode`. -/
inductive Mode
  | simple
  | expert
  deriving DecidableEq

/-- The `useState` slots of `SimulatorPage`; `sensitivityLoanRate` and
`sensitivityGrowth` are the two keys of the `sensitivityData` object. -/
structure PageState where
  mode : Mode
  loading : Bool
  sensitivityLoading : Bool
  result : Option ExpertSimulationResponse := none
  error : Option String := none
  lastExpertParams : Option ExpertSimulationRequest := none
  sensitivityLoanRate : Option SensitivityResponse := none
  sensitivityGrowth : Option SensitivityResponse := none
  deriving DecidableEq

/-- The hard-coded catch-branch message of both submit handlers. -/
def serverConnectionError : String := "Server connection error"

/-- The fallback used when an application failure carries no message
(`res.error || 'Unknown error'`). -/
def unknownError : String := "Unknown error"

/-- `handleSimpleSubmit` of page.tsx. -/
def handleSimpleSubmit (s : PageState) (outcome : Except String SimulationResponse) :
    PageState :=
  let s1 := { s with loading := true, error := none,
                     sensitivityLoanRate := none, sensitivityGrowth := none }
  let s2 :=
    match outcome with
    | .ok res =>
        if res.success then { s1 with result := some res.asExpert }
        else { s1 with error := some (jsOrS res.error unknownError) }
    | .error _ => { s1 with error := some serverConnectionError }
  { s2 with loading := false }

/-- `handleExpertSubmit` of page.tsx; it records `lastExpertParams` before the
request is awaited. -/
def handleExpertSubmit (s : PageState) (data : ExpertSimulationRequest)
    (outcome : Except String ExpertSimulationResponse) : PageState :=
  let s1 := { s with loading := true, error := none,
                     sensitivityLoanRate := none, sensitivityGrowth := none,
                     lastExpertParams := some data }
  let s2 :=
    match outcome with
    | .ok res =>
        if res.success then { s1 with result := some res }
        else { s1 with error := some (jsOrS res.error unknownError) }
    | .error _ => { s1 with error := some serverConnectionError }
  { s2 with loading := false }

/-- The loan-rate sweep request built by `handleSensitivityAnalysis`. -/
def loanRateSweepRequest (p : ExpertSimulationRequest) : SensitivityRequest :=
  { base_params := p, var_name := "loan_rate",
    range_min := some (-0.015), range_max := some 0.015, steps := some 7 }

/-- The growth-rate sweep request built by `handleSensitivityAnalysis`. -/
def growthSweepRequest (p : ExpertSimulationRequest) : SensitivityRequest :=
  { base_params := p, var_name := "property_growth_rate",
    range_min := some (-0.02), range_max := some 0.02, steps := some 7 }

/-- The outbound requests `handleSensitivityAnalysis` issues: none at all when
`lastExpertParams` is null (early `return`), both sweeps otherwise. -/
def sensitivityRequests (s : PageState) : List SensitivityRequest :=
  match s.lastExpertParams with
  | none => []
  | some p => [loanRateSweepRequest p, growthSweepRequest p]

/-- `handleSensitivityAnalysis` of page.tsx.  The two calls go through
`Promise.all`: if either promise rejects the combined promise rejects and the
catch branch only logs, so neither result is stored; only when both resolve are
the two slots written (each response is stored regardless of its own `success`
flag). -/
def handleSensitivityAnalysis (s : PageState)
    (loanOutcome growthOutcome : Except String SensitivityResponse) : PageState :=
  match s.lastExpertParams with
  | none => s
  | some _ =>
      let s1 := { s with sensitivityLoading := true }
      let s2 :=
        match loanOutcome, growthOutcome with
        | .ok l, .ok g => { s1 with sensitivityLoanRate := some l,
                                    sensitivityGrowth := some g }
        | _, _ => s1
      { s2 with sensitivityLoading := false }

/-- Guard of the loan-rate `SensitivityChart` inside the expert results block:
`sensitivityData.loanRate?.success && sensitivityData.loanRate.points && (...)`.
JS truthiness on an array: any present array — even `[]` — is truthy. -/
def loanRateChartShown (s : PageState) : Bool :=
  match s.sensitivityLoanRate with
  | some r => r.success && r.points.isSome
  | none => false

/-- Guard of the growth-rate `SensitivityChart` inside the expert results block:
`sensitivityData.growth?.success && sensitivityData.growth.points && (...)`. -/
def growthChartShown (s : PageState) : Bool :=
  match s.sensitivityGrowth with
  | some r => r.success && r.points.isSome
  | none => false

/-! ## Concrete sample values (used by witnesses and counterexamples) -/

/-- The initial expert form state from ExpertSimulatorForm.tsx. -/
def sampleExpertForm : ExpertSimulationRequest where
  location := "Lyon"
  property_price := 250000
  surface_sqm := 45
  agency_fees_pct := 0
  notary_fees_pct := 0.08
  initial_renovation := 0
  furnishing_costs := 9000
  apport := 50000
  loan_rate := 0.035
  loan_duration_years := 20
  loan_insurance_rate := 0.003
  lease_type := .furnished_1yr
  monthly_rent := 900
  daily_rate := 80
  vacancy_rate := 0.05
  occupancy_rate := 0.70
  rent_growth_rate := 0.015
  property_tax_yearly := 800
  condo_fees_monthly := 100
  pno_insurance_yearly := 150
  maintenance_pct := 0.05
  management_fee_pct := 0.07
  tmi := 0.30
  holding_years := 10
  property_growth_rate := 0.02
  exit_fees_pct := 0.05

/-- A metrics record of a successful simulation. -/
def sampleMetrics : SimulationMetrics :=
  ⟨0.06, 12000, 150, 0.08, 1.8, 300000, 120000, 4000, 50000, 130000, 15000⟩

/-- A successful expert response holding `sampleMetrics`. -/
def sampleExpertResponse : ExpertSimulationResponse where
  toSimulationResponse := { success := true, metrics := some sampleMetrics }

/-- Page state right after a successful expert submission. -/
def stateAfterExpert : PageState where
  mode := .expert
  loading := false
  sensitivityLoading := false
  result := some sampleExpertResponse
  error := none
  lastExpertParams := some sampleExpertForm
  sensitivityLoanRate := none
  sensitivityGrowth := none

/-- One sensitivity point. -/
def sampleSensPoint : SensitivityPoint := ⟨0.02, 0.06, 12000, 150⟩

/-- A successful growth sweep with a non-empty point sequence. -/
def sampleGrowthSuccess : SensitivityResponse where
  success := true
  var_name := "property_growth_rate"
  base_value := 0.02
  points := some [sampleSensPoint]

/-- A growth sweep response with `success: true` but an empty points array. -/
def emptyPointsGrowth : SensitivityResponse where
  success := true
  var_name := "property_growth_rate"
  base_value := 0.02
  points := some []

/-- Page state in which the stored growth result has empty points. -/
def stateWithEmptyPoints : PageState :=
  { stateAfterExpert with sensitivityGrowth := some emptyPointsGrowth }

/-- A location-defaults response none of whose keys is present. -/
def emptyDefaults : LocationDefaults := {}

/-- The cumulative sequence [-1000, -400, 200, 900] of §8 of the spec, with the
conventional year numbering 0..3. -/
def sampleCashflows : List YearlyCashFlow :=
  [⟨0, -1000, -1000⟩, ⟨1, 600, -400⟩, ⟨2, 600, 200⟩, ⟨3, 700, 900⟩]

/-- The never-breakeven cumulative sequence [-1000, -400, -100] of §8. -/
def neverBreakevenCashflows : List YearlyCashFlow :=
  [⟨0, -1000, -1000⟩, ⟨1, 600, -400⟩, ⟨2, 300, -100⟩]

/-- The never-negative cumulative sequence [100, 200] of §8. -/
def neverNegativeCashflows : List YearlyCashFlow :=
  [⟨0, 100, 100⟩, ⟨1, 100, 200⟩]

/-- A fiscal comparison whose annual savings are exactly 100. -/
def fiscalAtThreshold : FiscalComparison where
  recommended := "LMNP Micro-BIC"
  reason := "comparable tax burden"
  annual_savings := 100
  micro := ⟨"Micro-BIC", 10800, 5400, 1620, 0.15⟩
  reel := ⟨"LMNP Reel", 10800, 3400, 1520, 0.14⟩

/-! ## Helper lemmas on the scan order of `findFirstIdx` -/

theorem findFirstIdx_none_iff (p : ℕ → Bool) :
    ∀ fuel start, findFirstIdx p start fuel = none ↔
      ∀ i, start ≤ i → i < start + fuel → p i = false := by
  intro fuel
  induction fuel with
  | zero =>
      intro start
      simp only [findFirstIdx, true_iff]
      intro i h1 h2
      omega
  | succ n ih =>
      intro start
      simp only [findFirstIdx]
      by_cases hp : p start
      · rw [if_pos hp]
        constructor
        · intro h; exact absurd h (by simp)
        · intro h
          have := h start (le_refl _) (by omega)
          rw [hp] at this
          exact absurd this (by simp)
      · have hpf : p start = false := by simpa using hp
        rw [if_neg hp, ih (start + 1)]
        constructor
        · intro h i h1 h2
          rcases Nat.eq_or_lt_of_le h1 with rfl | hlt
          · exact hpf
          · exact h i hlt (by omega)
        · intro h i h1 h2
          exact h i (by omega) (by omega)

theorem findFirstIdx_some_spec (p : ℕ → Bool) :
    ∀ fuel start i, findFirstIdx p start fuel = some i →
      start ≤ i ∧ i < start + fuel ∧ p i = true ∧
        ∀ j, start ≤ j → j < i → p j = false := by
  intro fuel
  induction fuel with
  | zero =>
      intro start i h
      simp [findFirstIdx] at h
  | succ n ih =>
      intro start i h
      simp only [findFirstIdx] at h
      by_cases hp : p start
      · rw [if_pos hp] at h
        rw [Option.some.injEq] at h
        subst h
        exact ⟨le_refl _, by omega, hp, fun j h1 h2 => absurd h1 (by omega)⟩
      · have hpf : p start = false := by simpa using hp
        rw [if_neg hp] at h
        obtain ⟨h1, h2, h3, h4⟩ := ih (start + 1) i h
        refine ⟨by omega, by omega, h3, ?_⟩
        intro j hj1 hj2
        rcases Nat.eq_or_lt_of_le hj1 with rfl | hlt
        · exact hpf
        · exact h4 j (by omega) hj2

theorem findFirstIdx_ne_none (p : ℕ → Bool) (fuel start i : ℕ)
    (h1 : start ≤ i) (h2 : i < start + fuel) (hp : p i = true) :
    findFirstIdx p start fuel ≠ none := by
  intro hn
  rw [findFirstIdx_none_iff] at hn
  have := hn i h1 h2
  rw [hp] at this
  exact absurd this (by simp)

theorem transitionAt_lt_length (data : List YearlyCashFlow) (i : ℕ)
    (h : transitionAt data i = true) : i < data.length := by
  by_contra hge
  have hn : data[i]? = none := List.getElem?_eq_none_iff.mpr (by omega)
  simp [transitionAt, hn] at h

theorem transitionAt_eq_false_of_ge (data : List YearlyCashFlow) (i : ℕ)
    (h : data.length ≤ i) : transitionAt data i = false := by
  have hn : data[i]? = none := List.getElem?_eq_none_iff.mpr h
  simp [transitionAt, hn]

/-! ## Claim theorems -/

/-- C1: `getScoreInfo` classifies an IRR as good iff it strictly exceeds the
discount rate, acceptable iff it is strictly above the risk-free rate and at most
the discount rate, and poor iff it is at most the risk-free rate; the buckets
partition the line, and an IRR exactly equal to the discount rate lands in the
acceptable bucket. -/
theorem score_classification (r d : ℚ) (h : r < d) :
    (∀ irr goodLabel poorLabel,
        getScoreInfo irr r d goodLabel poorLabel =
          scoreInfoOf (scoreQuality irr r d) goodLabel poorLabel) ∧
    (∀ irr, (scoreQuality irr r d = .good ↔ d < irr) ∧
            (scoreQuality irr r d = .acceptable ↔ r < irr ∧ irr ≤ d) ∧
            (scoreQuality irr r d = .poor ↔ irr ≤ r)) ∧
    scoreQuality d r d = .acceptable := by
  refine ⟨?_, ?_, ?_⟩
  · intro irr goodLabel poorLabel
    unfold getScoreInfo scoreQuality scoreInfoOf
    split_ifs <;> rfl
  · intro irr
    unfold scoreQuality
    split_ifs with h1 h2
    · refine ⟨iff_of_true rfl h1, iff_of_false (by decide) ?_, iff_of_false (by decide) ?_⟩
      · rintro ⟨-, hle⟩; exact absurd h1 (not_lt.mpr hle)
      · intro hle; exact absurd h1 (not_lt.mpr (le_trans hle (le_of_lt h)))
    · exact ⟨iff_of_false (by decide) h1,
            iff_of_true rfl ⟨h2, not_lt.mp h1⟩,
            iff_of_false (by decide) (not_le.mpr h2)⟩
    · refine ⟨iff_of_false (by decide) h1, iff_of_false (by decide) ?_,
              iff_of_true rfl (not_lt.mp h2)⟩
      rintro ⟨hr, -⟩; exact h2 hr
  · unfold scoreQuality
    rw [if_neg (lt_irrefl d), if_pos h]

/-- Witness for C1 at the default thresholds: the §8 examples 0.06 → good,
0.04 → acceptable, 0.02 → poor, and the boundary irr = discount_rate →
acceptable. -/
theorem score_classification_witness :
    scoreQuality 0.06 defaultRiskFreeRate defaultDiscountRate = .good ∧
    scoreQuality 0.04 defaultRiskFreeRate defaultDiscountRate = .acceptable ∧
    scoreQuality 0.02 defaultRiskFreeRate defaultDiscountRate = .poor ∧
    scoreQuality defaultDiscountRate defaultRiskFreeRate defaultDiscountRate =
      .acceptable := by
  have h := score_classification defaultRiskFreeRate defaultDiscountRate
    (by norm_num [defaultRiskFreeRate, defaultDiscountRate])
  refine ⟨?_, ?_, ?_, h.2.2⟩
  · exact (h.2.1 0.06).1.mpr (by norm_num [defaultDiscountRate])
  · exact (h.2.1 0.04).2.1.mpr
      ⟨by norm_num [defaultRiskFreeRate], by norm_num [defaultDiscountRate]⟩
  · exact (h.2.1 0.02).2.2.mpr (by norm_num [defaultRiskFreeRate])

/-- C2: the detected breakeven year is the `year` field of the first index
`i > 0` with `cumulative[i-1] < 0` and `cumulative[i] ≥ 0`; when no such
transition exists the detection yields none and no badge is shown. -/
theorem breakeven_detection (data : List YearlyCashFlow) :
    (∀ i prev cur, data[i - 1]? = some prev → data[i]? = some cur →
        (transitionAt data i = true ↔
          0 < i ∧ prev.cumulative < 0 ∧ 0 ≤ cur.cumulative)) ∧
    (∀ i cur, data[i]? = some cur → transitionAt data i = true →
        (∀ j, j < i → transitionAt data j = false) →
        breakevenYear data = some cur.year) ∧
    ((∀ i, transitionAt data i = false) →
        breakevenYear data = none ∧ breakevenBadgeShown data = false) := by
  refine ⟨?_, ?_, ?_⟩
  · intro i prev cur h1 h2
    simp [transitionAt, h1, h2, and_assoc]
  · intro i cur hcur htrans hmin
    have hlen : i < data.length := transitionAt_lt_length data i htrans
    have hne : findFirstIdx (transitionAt data) 0 data.length ≠ none :=
      findFirstIdx_ne_none _ _ 0 i (Nat.zero_le i) (by omega) htrans
    obtain ⟨j, hj⟩ := Option.ne_none_iff_exists'.mp hne
    obtain ⟨_, _, hjp, hjmin⟩ := findFirstIdx_some_spec _ _ 0 j hj
    have hji : j = i := by
      rcases lt_trichotomy j i with hlt | heq | hgt
      · have hc := hmin j hlt
        rw [hjp] at hc
        exact absurd hc (by simp)
      · exact heq
      · have hc := hjmin i (Nat.zero_le i) hgt
        rw [htrans] at hc
        exact absurd hc (by simp)
    subst hji
    unfold breakevenYear
    rw [hj]
    simp [hcur]
  · intro hall
    have hnone : findFirstIdx (transitionAt data) 0 data.length = none := by
      rw [findFirstIdx_none_iff]
      intro i _ _
      exact hall i
    have hb : breakevenYear data = none := by
      unfold breakevenYear
      rw [hnone]
      rfl
    exact ⟨hb, by simp [breakevenBadgeShown, hb]⟩

/-- Witness for C2 on the §8 sequences: [-1000, -400, 200, 900] breaks even at
year 2; [-1000, -400, -100] and [100, 200] report no breakeven and show no
badge. -/
theorem breakeven_detection_witness :
    breakevenYear sampleCashflows = some 2 ∧
    breakevenYear neverBreakevenCashflows = none ∧
    breakevenYear neverNegativeCashflows = none ∧
    breakevenBadgeShown neverNegativeCashflows = false := by
  refine ⟨?_, ?_, ?_, ?_⟩
  · have h := (breakeven_detection sampleCashflows).2.1 2 ⟨2, 600, 200⟩
      (by decide) (by decide) ?_
    · simpa using h
    · intro j hj
      interval_cases j <;> decide
  · refine ((breakeven_detection neverBreakevenCashflows).2.2 ?_).1
    intro i
    by_cases hi : i < 3
    · interval_cases i <;> decide
    · exact transitionAt_eq_false_of_ge _ _ (by simp [neverBreakevenCashflows]; omega)
  · refine ((breakeven_detection neverNegativeCashflows).2.2 ?_).1
    intro i
    by_cases hi : i < 2
    · interval_cases i <;> decide
    · exact transitionAt_eq_false_of_ge _ _ (by simp [neverNegativeCashflows]; omega)
  · refine ((breakeven_detection neverNegativeCashflows).2.2 ?_).2
    intro i
    by_cases hi : i < 2
    · interval_cases i <;> decide
    · exact transitionAt_eq_false_of_ge _ _ (by simp [neverNegativeCashflows]; omega)

/-- C9: the annual-savings badge is displayed iff `annual_savings` strictly
exceeds 100; a value of exactly 100 or less shows no badge. -/
theorem savings_badge_threshold (data : FiscalComparison) :
    (savingsBadgeShown data = true ↔ 100 < data.annual_savings) ∧
    (data.annual_savings ≤ 100 → savingsBadgeShown data = false) := by
  constructor
  · simp [savingsBadgeShown]
  · intro hle
    simp [savingsBadgeShown]
    exact hle

/-- Witness for C9: at annual savings of exactly 100 the badge is not shown. -/
theorem savings_badge_threshold_witness :
    savingsBadgeShown fiscalAtThreshold = false :=
  (savings_badge_threshold fiscalAtThreshold).2 (by norm_num [fiscalAtThreshold])

/-- A stored fraction of the form `entered / 100` redisplays as `entered` when the
display fallback is 0. -/
theorem jsOrQ_div_identity (e : ℚ) : jsOrQ (e / 100) 0 * 100 = e := by
  by_cases he : e = 0
  · simp [jsOrQ, he]
  · rw [jsOrQ, if_neg (div_ne_zero he (by norm_num))]
    field_simp

/-- A stored non-zero fraction of the form `entered / 100` redisplays as `entered`
whatever the display fallback is. -/
theorem jsOrQ_div_fallback (e d : ℚ) (he : e ≠ 0) : jsOrQ (e / 100) d * 100 = e := by
  rw [jsOrQ, if_neg (div_ne_zero he (by norm_num))]
  field_simp

/-- C4 counterexample: entering 0 in the occupancy input stores the fraction 0,
but the input then redisplays `(0 || 0.7) * 100 = 70`; likewise vacancy
redisplays 5.  The UI-percent → fraction → UI-percent round trip is therefore not
the identity for every percent field and entry. -/
theorem percent_roundtrip_counterexample :
    (updateOccupancy sampleExpertForm 0).occupancy_rate = 0 ∧
    displayOccupancyPct (updateOccupancy sampleExpertForm 0) = 70 ∧
    (updateVacancy sampleExpertForm 0).vacancy_rate = 0 ∧
    displayVacancyPct (updateVacancy sampleExpertForm 0) = 5 ∧
    (70 : ℚ) ≠ 0 ∧ (5 : ℚ) ≠ 0 := by
  refine ⟨?_, ?_, ?_, ?_, by norm_num, by norm_num⟩
  · norm_num [updateOccupancy]
  · norm_num [displayOccupancyPct, updateOccupancy, jsOrQ]
  · norm_num [updateVacancy]
  · norm_num [displayVacancyPct, updateVacancy, jsOrQ]

/-- C4 (amended): every percent entry is divided by 100 exactly once on its way to
the wire (the expert form stores `entered / 100` and submits the form state
unchanged; the simple form divides its whole-percent loan rate by 100 at submit),
and displaying multiplies the stored fraction by 100 through a JS `||` fallback —
so the round trip is the identity for every non-zero entry, and for zero entries
on every field whose fallback is 0; only `occupancy_rate` and `vacancy_rate`
redisplay an entered 0 as their fallbacks 70 and 5. -/
theorem percent_roundtrip_amended (f : ExpertSimulationRequest) (sf : SimpleForm)
    (e : ℚ) :
    ((updateNotaryFees f e).notary_fees_pct = e / 100 ∧
     (updateLoanRate f e).loan_rate = e / 100 ∧
     (updateLoanInsurance f e).loan_insurance_rate = e / 100 ∧
     (updateOccupancy f e).occupancy_rate = e / 100 ∧
     (updateVacancy f e).vacancy_rate = e / 100 ∧
     (updateRentGrowth f e).rent_growth_rate = e / 100 ∧
     (updateMaintenance f e).maintenance_pct = e / 100 ∧
     (updateManagementFee f e).management_fee_pct = e / 100 ∧
     (updatePropertyGrowth f e).property_growth_rate = e / 100) ∧
    submitExpertForm f = f ∧
    (submitSimpleForm sf).loan_rate = sf.loan_rate / 100 ∧
    (displayNotaryFeesPct (updateNotaryFees f e) = e ∧
     displayLoanRatePct (updateLoanRate f e) = e ∧
     displayLoanInsurancePct (updateLoanInsurance f e) = e ∧
     displayRentGrowthPct (updateRentGrowth f e) = e ∧
     displayMaintenancePct (updateMaintenance f e) = e ∧
     displayManagementFeePct (updateManagementFee f e) = e ∧
     displayPropertyGrowthPct (updatePropertyGrowth f e) = e) ∧
    (e ≠ 0 → displayOccupancyPct (updateOccupancy f e) = e ∧
             displayVacancyPct (updateVacancy f e) = e) ∧
    (displayOccupancyPct (updateOccupancy f 0) = 70 ∧
     displayVacancyPct (updateVacancy f 0) = 5) := by
  refine ⟨⟨rfl, rfl, rfl, rfl, rfl, rfl, rfl, rfl, rfl⟩, rfl, rfl,
          ⟨?_, ?_, ?_, ?_, ?_, ?_, ?_⟩, ?_, ?_, ?_⟩
  · exact jsOrQ_div_identity e
  · exact jsOrQ_div_identity e
  · exact jsOrQ_div_identity e
  · exact jsOrQ_div_identity e
  · exact jsOrQ_div_identity e
  · exact jsOrQ_div_identity e
  · exact jsOrQ_div_identity e
  · intro he
    exact ⟨jsOrQ_div_fallback e 0.7 he, jsOrQ_div_fallback e 0.05 he⟩
  · norm_num [displayOccupancyPct, updateOccupancy, jsOrQ]
  · norm_num [displayVacancyPct, updateVacancy, jsOrQ]

/-- Witness for C4 (amended): 8.5 round-trips to 8.5 on the loan-rate input, an
entered 8 reaches the simple-submit payload as 0.08, and a non-zero occupancy
entry round-trips too. -/
theorem percent_roundtrip_amended_witness :
    displayLoanRatePct (updateLoanRate sampleExpertForm 8.5) = 8.5 ∧
    (submitSimpleForm ⟨"Lyon", 250000, 45, 900, 50000, 8⟩).loan_rate = 0.08 ∧
    displayOccupancyPct (updateOccupancy sampleExpertForm 60) = 60 := by
  have h := percent_roundtrip_amended sampleExpertForm
    ⟨"Lyon", 250000, 45, 900, 50000, 8⟩ 8.5
  have h60 := percent_roundtrip_amended sampleExpertForm
    ⟨"Lyon", 250000, 45, 900, 50000, 8⟩ 60
  refine ⟨h.2.2.2.1.2.1, ?_, (h60.2.2.2.2.1 (by norm_num)).1⟩
  rw [h.2.2.1]
  norm_num

/-- C6 counterexample: merging a location-defaults response that carries no
per-square-meter keys does not retain the prior property-tax and condo-fee
values — it overwrites both with 0. -/
theorem merge_defaults_counterexample :
    (mergeLocationDefaults sampleExpertForm emptyDefaults).property_tax_yearly = 0 ∧
    (mergeLocationDefaults sampleExpertForm emptyDefaults).condo_fees_monthly = 0 ∧
    sampleExpertForm.property_tax_yearly = 800 ∧
    sampleExpertForm.condo_fees_monthly = 100 := by
  refine ⟨?_, ?_, rfl, rfl⟩
  · norm_num [mergeLocationDefaults, emptyDefaults, jsOr]
  · norm_num [mergeLocationDefaults, emptyDefaults, jsOr]

/-- C6 (amended): for the five directly-merged fields an absent-or-zero default
retains the prior form value and a present non-zero default overwrites it (even a
user-edited one); but `property_tax_yearly` and `condo_fees_monthly` are
recomputed as `(per-sqm default || 0) * surface`, so an absent or zero per-sqm
default sets them to 0 instead of retaining the prior value; every field outside
the seven merged ones is untouched. -/
theorem merge_defaults_amended (prev : ExpertSimulationRequest) (d : LocationDefaults) :
    ((d.notary_pct = none ∨ d.notary_pct = some 0) →
        (mergeLocationDefaults prev d).notary_fees_pct = prev.notary_fees_pct) ∧
    (∀ v, d.notary_pct = some v → v ≠ 0 →
        (mergeLocationDefaults prev d).notary_fees_pct = v) ∧
    ((d.pno_insurance = none ∨ d.pno_insurance = some 0) →
        (mergeLocationDefaults prev d).pno_insurance_yearly =
          prev.pno_insurance_yearly) ∧
    (∀ v, d.pno_insurance = some v → v ≠ 0 →
        (mergeLocationDefaults prev d).pno_insurance_yearly = v) ∧
    ((d.vacancy_rate = none ∨ d.vacancy_rate = some 0) →
        (mergeLocationDefaults prev d).vacancy_rate = prev.vacancy_rate) ∧
    (∀ v, d.vacancy_rate = some v → v ≠ 0 →
        (mergeLocationDefaults prev d).vacancy_rate = v) ∧
    ((d.price_growth = none ∨ d.price_growth = some 0) →
        (mergeLocationDefaults prev d).property_growth_rate =
          prev.property_growth_rate) ∧
    (∀ v, d.price_growth = some v → v ≠ 0 →
        (mergeLocationDefaults prev d).property_growth_rate = v) ∧
    ((d.management_fee_pct = none ∨ d.management_fee_pct = some 0) →
        (mergeLocationDefaults prev d).management_fee_pct =
          prev.management_fee_pct) ∧
    (∀ v, d.management_fee_pct = some v → v ≠ 0 →
        (mergeLocationDefaults prev d).management_fee_pct = v) ∧
    ((d.property_tax_per_sqm = none ∨ d.property_tax_per_sqm = some 0) →
        (mergeLocationDefaults prev d).property_tax_yearly = 0) ∧
    (∀ v, d.property_tax_per_sqm = some v → v ≠ 0 →
        (mergeLocationDefaults prev d).property_tax_yearly =
          v * prev.surface_sqm) ∧
    ((d.condo_fees_per_sqm = none ∨ d.condo_fees_per_sqm = some 0) →
        (mergeLocationDefaults prev d).condo_fees_monthly = 0) ∧
    (∀ v, d.condo_fees_per_sqm = some v → v ≠ 0 →
        (mergeLocationDefaults prev d).condo_fees_monthly =
          v * prev.surface_sqm) ∧
    ((mergeLocationDefaults prev d).location = prev.location ∧
     (mergeLocationDefaults prev d).property_price = prev.property_price ∧
     (mergeLocationDefaults prev d).surface_sqm = prev.surface_sqm ∧
     (mergeLocationDefaults prev d).agency_fees_pct = prev.agency_fees_pct ∧
     (mergeLocationDefaults prev d).initial_renovation = prev.initial_renovation ∧
     (mergeLocationDefaults prev d).furnishing_costs = prev.furnishing_costs ∧
     (mergeLocationDefaults prev d).apport = prev.apport ∧
     (mergeLocationDefaults prev d).loan_rate = prev.loan_rate ∧
     (mergeLocationDefaults prev d).loan_duration_years =
       prev.loan_duration_years ∧
     (mergeLocationDefaults prev d).loan_insurance_rate =
       prev.loan_insurance_rate ∧
     (mergeLocationDefaults prev d).lease_type = prev.lease_type ∧
     (mergeLocationDefaults prev d).monthly_rent = prev.monthly_rent ∧
     (mergeLocationDefaults prev d).daily_rate = prev.daily_rate ∧
     (mergeLocationDefaults prev d).occupancy_rate = prev.occupancy_rate ∧
     (mergeLocationDefaults prev d).rent_growth_rate = prev.rent_growth_rate ∧
     (mergeLocationDefaults prev d).maintenance_pct = prev.maintenance_pct ∧
     (mergeLocationDefaults prev d).tmi = prev.tmi ∧
     (mergeLocationDefaults prev d).holding_years = prev.holding_years ∧
     (mergeLocationDefaults prev d).exit_fees_pct = prev.exit_fees_pct ∧
     (mergeLocationDefaults prev d).discount_rate = prev.discount_rate) := by
  refine ⟨?_, ?_, ?_, ?_, ?_, ?_, ?_, ?_, ?_, ?_, ?_, ?_, ?_, ?_,
          rfl, rfl, rfl, rfl, rfl, rfl, rfl, rfl, rfl, rfl, rfl, rfl, rfl, rfl,
          rfl, rfl, rfl, rfl, rfl, rfl⟩
  · rintro (h | h) <;> simp [mergeLocationDefaults, jsOr, h]
  · intro v hv hnz; simp [mergeLocationDefaults, jsOr, hv, hnz]
  · rintro (h | h) <;> simp [mergeLocationDefaults, jsOr, h]
  · intro v hv hnz; simp [mergeLocationDefaults, jsOr, hv, hnz]
  · rintro (h | h) <;> simp [mergeLocationDefaults, jsOr, h]
  · intro v hv hnz; simp [mergeLocationDefaults, jsOr, hv, hnz]
  · rintro (h | h) <;> simp [mergeLocationDefaults, jsOr, h]
  · intro v hv hnz; simp [mergeLocationDefaults, jsOr, hv, hnz]
  · rintro (h | h) <;> simp [mergeLocationDefaults, jsOr, h]
  · intro v hv hnz; simp [mergeLocationDefaults, jsOr, hv, hnz]
  · rintro (h | h) <;> simp [mergeLocationDefaults, jsOr, h]
  · intro v hv hnz; simp [mergeLocationDefaults, jsOr, hv, hnz]
  · rintro (h | h) <;> simp [mergeLocationDefaults, jsOr, h]
  · intro v hv hnz; simp [mergeLocationDefaults, jsOr, hv, hnz]

/-- A defaults response carrying only a notary percentage and a per-sqm property
tax. -/
def sampleDefaults : LocationDefaults where
  notary_pct := some 0.075
  property_tax_per_sqm := some 20

/-- Witness for C6 (amended): with `sampleDefaults`, the notary default
overwrites the edited value, the property tax becomes 20 * 45 = 900, the condo
fee gets zeroed, and vacancy is retained. -/
theorem merge_defaults_amended_witness :
    (mergeLocationDefaults sampleExpertForm sampleDefaults).notary_fees_pct = 0.075 ∧
    (mergeLocationDefaults sampleExpertForm sampleDefaults).property_tax_yearly = 900 ∧
    (mergeLocationDefaults sampleExpertForm sampleDefaults).condo_fees_monthly = 0 ∧
    (mergeLocationDefaults sampleExpertForm sampleDefaults).vacancy_rate =
      sampleExpertForm.vacancy_rate := by
  obtain ⟨hA1, hA2, hB1, hB2, hC1, hC2, hD1, hD2, hE1, hE2, hF1, hF2, hG1, hG2, -⟩ :=
    merge_defaults_amended sampleExpertForm sampleDefaults
  refine ⟨hA2 0.075 rfl (by norm_num), ?_, hG1 (Or.inl rfl), hC1 (Or.inl rfl)⟩
  rw [hF2 20 rfl (by norm_num)]
  norm_num [sampleExpertForm]

/-- C5 counterexample: the application channel is `res.error || 'Unknown error'`
— a JS `||`, under which an empty-string server message is falsy — so a
`success:false` response whose message is `""` displays the generic fallback,
not the server-supplied message verbatim. -/
theorem error_channel_counterexample :
    (handleSimpleSubmit stateAfterExpert
        (Except.ok { success := false, error := some "" })).error =
      some unknownError ∧
    unknownError ≠ "" := by
  refine ⟨rfl, ?_⟩
  intro h
  exact absurd h (by decide)

/-- C5 (amended): transport failures surface as the fixed generic connection
message, independent of (and never) the thrown error; application failures
surface the server message verbatim when it is non-empty, and fall back to the
generic unknown-error message when it is absent or empty (JS `||` truthiness);
a successful response sets no error at all — the two channels never mix. -/
theorem submit_error_channels (s : PageState) (data : ExpertSimulationRequest) :
    (∀ e, (handleSimpleSubmit s (Except.error e)).error =
        some serverConnectionError) ∧
    (∀ e, (handleExpertSubmit s data (Except.error e)).error =
        some serverConnectionError) ∧
    (∀ res : SimulationResponse, res.success = false →
        (handleSimpleSubmit s (Except.ok res)).error =
          some (jsOrS res.error unknownError)) ∧
    (∀ res : SimulationResponse, ∀ m, res.success = false → res.error = some m →
        m ≠ "" → (handleSimpleSubmit s (Except.ok res)).error = some m) ∧
    (∀ res : SimulationResponse, res.success = false →
        (res.error = none ∨ res.error = some "") →
        (handleSimpleSubmit s (Except.ok res)).error = some unknownError) ∧
    (∀ res : ExpertSimulationResponse, ∀ m, res.success = false →
        res.error = some m → m ≠ "" →
        (handleExpertSubmit s data (Except.ok res)).error = some m) ∧
    (∀ res : ExpertSimulationResponse, res.success = false →
        (res.error = none ∨ res.error = some "") →
        (handleExpertSubmit s data (Except.ok res)).error = some unknownError) ∧
    (∀ res : SimulationResponse, res.success = true →
        (handleSimpleSubmit s (Except.ok res)).error = none) ∧
    (∀ res : ExpertSimulationResponse, res.success = true →
        (handleExpertSubmit s data (Except.ok res)).error = none) := by
  refine ⟨fun e => rfl, fun e => rfl, ?_, ?_, ?_, ?_, ?_, ?_, ?_⟩
  · intro res hres
    simp [handleSimpleSubmit, hres]
  · intro res m hres herr hm
    simp [handleSimpleSubmit, jsOrS, hres, herr, hm]
  · intro res hres herr
    rcases herr with h | h <;> simp [handleSimpleSubmit, jsOrS, hres, h]
  · intro res m hres herr hm
    simp [handleExpertSubmit, jsOrS, hres, herr, hm]
  · intro res hres herr
    rcases herr with h | h <;> simp [handleExpertSubmit, jsOrS, hres, h]
  · intro res hres
    simp [handleSimpleSubmit, hres]
  · intro res hres
    simp [handleExpertSubmit, hres]

/-- Witness for C5 (amended): a concrete rejected fetch yields the generic
message, a concrete `success:false` response surfaces its non-empty message
verbatim, and responses with an absent or empty message fall back to the
generic unknown-error string. -/
theorem submit_error_channels_witness :
    (handleSimpleSubmit stateAfterExpert (Except.error "Failed to fetch")).error =
      some serverConnectionError ∧
    (handleSimpleSubmit stateAfterExpert
        (Except.ok { success := false, error := some "price must be positive" })).error =
      some "price must be positive" ∧
    (handleSimpleSubmit stateAfterExpert (Except.ok { success := false })).error =
      some unknownError ∧
    (handleSimpleSubmit stateAfterExpert
        (Except.ok { success := false, error := some "" })).error =
      some unknownError := by
  have h := submit_error_channels stateAfterExpert sampleExpertForm
  exact ⟨h.1 "Failed to fetch",
         h.2.2.2.1 { success := false, error := some "price must be positive" }
           "price must be positive" rfl rfl (by decide),
         h.2.2.2.2.1 { success := false } rfl (Or.inl rfl),
         h.2.2.2.2.1 { success := false, error := some "" } rfl (Or.inr rfl)⟩

/-- C10: a failed resubmission — transport rejection or `success:false` — leaves
the stored result untouched, so the previously rendered metrics stay those of the
last successful submission. -/
theorem result_preserved_on_failed_resubmit (s : PageState)
    (data : ExpertSimulationRequest) :
    (∀ e, (handleSimpleSubmit s (Except.error e)).result = s.result) ∧
    (∀ res : SimulationResponse, res.success = false →
        (handleSimpleSubmit s (Except.ok res)).result = s.result) ∧
    (∀ e, (handleExpertSubmit s data (Except.error e)).result = s.result) ∧
    (∀ res : ExpertSimulationResponse, res.success = false →
        (handleExpertSubmit s data (Except.ok res)).result = s.result) := by
  refine ⟨fun e => rfl, ?_, fun e => rfl, ?_⟩
  · intro res hres
    simp [handleSimpleSubmit, hres]
  · intro res hres
    simp [handleExpertSubmit, hres]

/-- Witness for C10: after a successful expert submission, both a rejected
resubmit and a `success:false` resubmit keep the stored successful result. -/
theorem result_preserved_witness :
    (handleSimpleSubmit stateAfterExpert (Except.error "Failed to fetch")).result =
      some sampleExpertResponse ∧
    (handleExpertSubmit stateAfterExpert sampleExpertForm
        (Except.ok { toSimulationResponse := { success := false } })).result =
      some sampleExpertResponse := by
  have h := result_preserved_on_failed_resubmit stateAfterExpert sampleExpertForm
  constructor
  · rw [h.1 "Failed to fetch"]
    rfl
  · rw [h.2.2.2 { toSimulationResponse := { success := false } } rfl]
    rfl

/-- C8: the sensitivity operation always bases both sweep requests on the
last-submitted expert parameter set (loan rate −0.015..0.015, growth
−0.02..0.02, 7 steps each), the expert submit records that set, and with no
prior expert submission it is a no-op: no request and an unchanged state. -/
theorem sensitivity_requests_spec (s : PageState) :
    (s.lastExpertParams = none →
        sensitivityRequests s = [] ∧
        ∀ lo go, handleSensitivityAnalysis s lo go = s) ∧
    (∀ p, s.lastExpertParams = some p →
        sensitivityRequests s = [loanRateSweepRequest p, growthSweepRequest p] ∧
        (loanRateSweepRequest p).base_params = p ∧
        (loanRateSweepRequest p).var_name = "loan_rate" ∧
        (loanRateSweepRequest p).range_min = some (-0.015) ∧
        (loanRateSweepRequest p).range_max = some 0.015 ∧
        (loanRateSweepRequest p).steps = some 7 ∧
        (growthSweepRequest p).base_params = p ∧
        (growthSweepRequest p).var_name = "property_growth_rate" ∧
        (growthSweepRequest p).range_min = some (-0.02) ∧
        (growthSweepRequest p).range_max = some 0.02 ∧
        (growthSweepRequest p).steps = some 7) ∧
    (∀ data outcome,
        (handleExpertSubmit s data outcome).lastExpertParams = some data) := by
  refine ⟨?_, ?_, ?_⟩
  · intro h
    constructor
    · simp [sensitivityRequests, h]
    · intro lo go
      simp [handleSensitivityAnalysis, h]
  · intro p hp
    exact ⟨by simp [sensitivityRequests, hp], rfl, rfl, rfl, rfl, rfl, rfl, rfl,
           rfl, rfl, rfl⟩
  · intro data outcome
    rcases outcome with e | res
    · rfl
    · by_cases hres : res.success <;> simp [handleExpertSubmit, hres]

/-- The page state before any submission. -/
def stateInitial : PageState where
  mode := .simple
  loading := false
  sensitivityLoading := false

/-- Witness for C8: with no expert submission the sensitivity operation issues no
request and changes nothing; after one, both sweeps are based on the submitted
parameters. -/
theorem sensitivity_requests_witness :
    sensitivityRequests stateInitial = [] ∧
    handleSensitivityAnalysis stateInitial (Except.error "Failed to fetch")
      (Except.ok sampleGrowthSuccess) = stateInitial ∧
    sensitivityRequests stateAfterExpert =
      [loanRateSweepRequest sampleExpertForm, growthSweepRequest sampleExpertForm] := by
  have h0 := sensitivity_requests_spec stateInitial
  have h1 := sensitivity_requests_spec stateAfterExpert
  exact ⟨(h0.1 rfl).1, (h0.1 rfl).2 _ _, (h1.2.1 sampleExpertForm rfl).1⟩

/-- C3 counterexample: the two sweeps go through `Promise.all`, so when the
loan-rate request rejects at transport level while the growth sweep succeeds
with points, the growth result is NOT stored and its chart is not rendered —
refuting the claim for the transport-rejection case. -/
theorem sensitivity_coupling_counterexample :
    sampleGrowthSuccess.success = true ∧
    sampleGrowthSuccess.points = some [sampleSensPoint] ∧
    (handleSensitivityAnalysis stateAfterExpert (Except.error "Failed to fetch")
        (Except.ok sampleGrowthSuccess)).sensitivityGrowth = none ∧
    growthChartShown (handleSensitivityAnalysis stateAfterExpert
        (Except.error "Failed to fetch") (Except.ok sampleGrowthSuccess)) = false :=
  ⟨rfl, rfl, rfl, rfl⟩

/-- C3 (amended): when both sweep promises resolve, each result is stored and the
growth chart's rendering depends only on the growth result — in particular a
loan-rate `success:false` does not block the growth chart and there is no
combined failure state at the application level; but if either request rejects
at transport level, `Promise.all` rejects and neither slot is written. -/
theorem sensitivity_independence_amended (s : PageState) (p : ExpertSimulationRequest)
    (l g : SensitivityResponse) (hp : s.lastExpertParams = some p) :
    ((handleSensitivityAnalysis s (Except.ok l) (Except.ok g)).sensitivityGrowth =
        some g ∧
     (handleSensitivityAnalysis s (Except.ok l) (Except.ok g)).sensitivityLoanRate =
        some l ∧
     growthChartShown (handleSensitivityAnalysis s (Except.ok l) (Except.ok g)) =
        (g.success && g.points.isSome)) ∧
    (∀ e, (handleSensitivityAnalysis s (Except.error e)
              (Except.ok g)).sensitivityGrowth = s.sensitivityGrowth ∧
          (handleSensitivityAnalysis s (Except.ok l)
              (Except.error e)).sensitivityLoanRate = s.sensitivityLoanRate) := by
  refine ⟨⟨?_, ?_, ?_⟩, ?_⟩
  · simp [handleSensitivityAnalysis, hp]
  · simp [handleSensitivityAnalysis, hp]
  · simp [handleSensitivityAnalysis, growthChartShown, hp]
  · intro e
    constructor <;> simp [handleSensitivityAnalysis, hp]

/-- A loan-rate sweep that failed at application level. -/
def failedLoanSweep : SensitivityResponse where
  success := false
  var_name := "loan_rate"
  base_value := 0.035
  error := some "sweep failed"

/-- Witness for C3 (amended): a resolved `success:false` loan sweep does not
block the growth chart. -/
theorem sensitivity_independence_witness :
    (handleSensitivityAnalysis stateAfterExpert (Except.ok failedLoanSweep)
        (Except.ok sampleGrowthSuccess)).sensitivityGrowth =
      some sampleGrowthSuccess ∧
    growthChartShown (handleSensitivityAnalysis stateAfterExpert
        (Except.ok failedLoanSweep) (Except.ok sampleGrowthSuccess)) = true := by
  have h := sensitivity_independence_amended stateAfterExpert sampleExpertForm
    failedLoanSweep sampleGrowthSuccess rfl
  refine ⟨h.1.1, ?_⟩
  rw [h.1.2.2]
  rfl

/-- C7 counterexample: a stored growth result with `success:true` and an empty
(but present) points array still renders its chart — JS treats `[]` as truthy —
refuting the claimed non-emptiness requirement. -/
theorem chart_guard_counterexample :
    emptyPointsGrowth.success = true ∧
    emptyPointsGrowth.points = some [] ∧
    growthChartShown stateWithEmptyPoints = true :=
  ⟨rfl, rfl, rfl⟩

/-- C7 (amended): a stored sweep result's chart is rendered iff its own `success`
flag is true and its points sequence is present — presence, not non-emptiness,
is what the guard checks; with no stored result nothing is rendered. -/
theorem chart_render_guard (s : PageState) :
    (∀ r, s.sensitivityGrowth = some r →
        growthChartShown s = (r.success && r.points.isSome)) ∧
    (s.sensitivityGrowth = none → growthChartShown s = false) ∧
    (∀ r, s.sensitivityLoanRate = some r →
        loanRateChartShown s = (r.success && r.points.isSome)) ∧
    (s.sensitivityLoanRate = none → loanRateChartShown s = false) := by
  refine ⟨?_, ?_, ?_, ?_⟩
  · intro r hr
    simp [growthChartShown, hr]
  · intro h
    simp [growthChartShown, h]
  · intro r hr
    simp [loanRateChartShown, hr]
  · intro h
    simp [loanRateChartShown, h]

/-- Witness for C7 (amended): the empty-points growth result renders (success and
points present), while the absent loan-rate slot renders nothing. -/
theorem chart_render_guard_witness :
    growthChartShown stateWithEmptyPoints = true ∧
    loanRateChartShown stateWithEmptyPoints = false := by
  have h := chart_render_guard stateWithEmptyPoints
  refine ⟨?_, h.2.2.2 rfl⟩
  rw [h.1 emptyPointsGrowth rfl]
  rfl

end FinModels
